import Mathlib

/-!
Shallow embedding of the DuetWebControl connection-orchestration store
(`src/unnamed/part_000`), the board capability table (`src/unnamed/part_001`)
and the error taxonomy (`src/src/utils/errors.js`), together with theorems
settling the specification claims about them.

External collaborators (the connector's handshake, the per-machine teardown
dispatch, the command dispatch) perform network I/O; their outcomes are
passed to the embedded actions as explicit `Except` oracles, so a theorem
quantifying over the oracle covers every possible outcome of the I/O.
-/

deriving instance DecidableEq for Except

namespace DuetWebControl

/-! ## Board capability table (`src/unnamed/part_001`) -/

/-- One entry of the `boardDefinitions` table. -/
structure BoardDefinition where
  motorWarningCurrent : Nat
  motorLimitCurrent : Nat
  seriesResistor : Nat
  microstepping : Bool
  microsteppingInterpolation : Bool
  maxDrives : Nat
  maxHeaters : Nat
  maxThermistors : Nat
  maxRtdBoards : Nat
  maxFans : Nat
  hasEthernet : Bool
  hasWiFi : Bool
  hasPowerFailureDetection : Bool
  hasMotorLoadDetection : Bool
deriving DecidableEq, Repr

/-- The `duetwifi10` entry of `boardDefinitions`. -/
def duetwifi10 : BoardDefinition :=
  { motorWarningCurrent := 2000
    motorLimitCurrent := 2400
    seriesResistor := 4700
    microstepping := true
    microsteppingInterpolation := false
    maxDrives := 10
    maxHeaters := 8
    maxThermistors := 8
    maxRtdBoards := 8
    maxFans := 3
    hasEthernet := false
    hasWiFi := true
    hasPowerFailureDetection := true
    hasMotorLoadDetection := true }

/-- The `duetethernet10` entry of `boardDefinitions`. -/
def duetethernet10 : BoardDefinition :=
  { motorWarningCurrent := 2000
    motorLimitCurrent := 2400
    seriesResistor := 4700
    microstepping := true
    microsteppingInterpolation := false
    maxDrives := 10
    maxHeaters := 8
    maxThermistors := 8
    maxRtdBoards := 8
    maxFans := 3
    hasEthernet := true
    hasWiFi := false
    hasPowerFailureDetection := true
    hasMotorLoadDetection := true }

/-- The `duetm10` entry of `boardDefinitions`. -/
def duetm10 : BoardDefinition :=
  { motorWarningCurrent := 1200
    motorLimitCurrent := 1600
    seriesResistor := 2200
    microstepping := true
    microsteppingInterpolation := true
    maxDrives := 7
    maxHeaters := 3
    maxThermistors := 4
    maxRtdBoards := 4
    maxFans := 3
    hasEthernet := true
    hasWiFi := false
    hasPowerFailureDetection := true
    hasMotorLoadDetection := true }

/-- The `boardDefinitions` object: a JS object keyed by board type; property
lookup on a missing key yields `undefined`, modelled as `none`. -/
def boardDefinitions (boardType : String) : Option BoardDefinition :=
  if boardType = "duetwifi10" then some duetwifi10
  else if boardType = "duetethernet10" then some duetethernet10
  else if boardType = "duetm10" then some duetm10
  else none

/-- `export const defaultBoardName = 'duetwifi10'`. -/
def defaultBoardName : String := "duetwifi10"

/-- `export const defaultBoard = boardDefinitions[defaultBoardName]` — the
lookup succeeds, so the value is the `duetwifi10` entry. -/
def defaultBoard : BoardDefinition := duetwifi10

/-- `isBoardValid(boardType)`: `boardDefinitions[boardType] !== undefined`. -/
def isBoardValid (boardType : String) : Bool :=
  (boardDefinitions boardType).isSome

/-- `getBoardDefinition(boardType)`: return the stored definition if present,
otherwise warn and return `boardDefinitions[defaultBoardName]`. -/
def getBoardDefinition (boardType : String) : BoardDefinition :=
  match boardDefinitions boardType with
  | some d => d
  | none => defaultBoard

/-! ## Orchestration core (`src/unnamed/part_000`)

The Vuex store's state plus the registry of machine modules and the
UI collaborator's endpoint set. The registry `machines` is a JS object
keyed by hostname (keys unique); it is modelled as the list of its keys,
with `delete machines[hostname]` removing every occurrence of the key.

Modelled from the spec: the UI collaborator (`ui.js`, not under `src/`)
mirrors registered endpoints for display; `commit('ui/addMachine', h)`
adds `h` to its endpoint set, modelled as the list `uiMachines`. -/

/-- Notification levels passed to `Logger.logGlobal` / `this.$log`. -/
inductive Level
  | success
  | warning
  | error
deriving DecidableEq, Repr

/-- The i18n-keyed global notification messages used by connect/disconnect.
`detail` carries the underlying exception's message where present. -/
inductive NotifyMsg
  | connected (hostname : String)
  | connectError (hostname : String) (detail : String)
  | disconnected (hostname : String)
  | disconnectError (hostname : String) (detail : String)
deriving DecidableEq, Repr

/-- Observable effects of the store actions, in program order: mutations
committed to the store, calls into the UI collaborator and the connector,
and notifications/log lines emitted. -/
inductive Event
  | setConnecting (b : Bool)
  | setDisconnecting (b : Bool)
  | addMachine (hostname : String)
  | uiAddMachine (hostname : String)
  | registerConnector (hostname : String)
  | setSelectedMachine (hostname : String)
  | notifyGlobal (lvl : Level) (msg : NotifyMsg)
  | unregisterBindings (hostname : String)
  | removeMachine (hostname : String)
  | logCode (code response hostname : String)
  | log (lvl : Level) (msg : String)
deriving DecidableEq, Repr

/-- The distinct synchronous precondition errors thrown by `connect` and
`disconnect` (each a generic `Error` with its own message in the source). -/
inductive StoreError
  | invalidHostname
  | alreadyConnected (hostname : String)
  | alreadyConnecting
  | alreadyDisconnected (hostname : String)
deriving DecidableEq, Repr

/-- Classification of errors raised by a machine's `sendCode` dispatch:
`DisconnectedError`, `CodeBufferError` or any other `Error`
(`src/src/utils/errors.js`). -/
inductive ErrKind
  | disconnectedErr
  | codeBufferErr
  | otherErr
deriving DecidableEq, Repr

/-- An error raised by the dispatch capability, with its `message`. -/
structure DispatchErr where
  kind : ErrKind
  msg : String
deriving DecidableEq, Repr

/-- The store's orchestration state: the gate flags and the selected
machine (`state`), the registry keys (`machines`), and the UI
collaborator's endpoint set (`uiMachines`). -/
structure OrchState where
  isConnecting : Bool
  isDisconnecting : Bool
  selectedMachine : String
  machines : List String
  uiMachines : List String
deriving DecidableEq, Repr

/-- The store's initial state: only the built-in `default` machine exists
and is selected; no transition is in flight. -/
def initialState : OrchState :=
  { isConnecting := false
    isDisconnecting := false
    selectedMachine := "default"
    machines := ["default"]
    uiMachines := [] }

/-- Outcome of a store action: the value returned or error thrown to the
caller, the state afterwards, and the trace of observable effects. -/
structure ActionResult where
  result : Except StoreError Unit
  state : OrchState
  events : List Event
deriving DecidableEq, Repr

/-- The `connect` action. `handshake` is the oracle for the awaited
`connector.connect(hostname, user, password)` call: `.ok` yielding a
connector instance, or `.error msg` for a rejection with message `msg`.
Per the spec's Connector Interface contract, `SessionHandle.register`
(whose code is not under `src/`) does not fail, so the handshake is the
only fallible step inside the `try` block. -/
def connect (s : OrchState) (hostname : String) (handshake : Except String Unit) :
    ActionResult :=
  if hostname = "default" then
    ⟨.error .invalidHostname, s, []⟩
  else if hostname ∈ s.machines then
    ⟨.error (.alreadyConnected hostname), s, []⟩
  else if s.isConnecting then
    ⟨.error .alreadyConnecting, s, []⟩
  else
    match handshake with
    | .ok _ =>
      ⟨.ok (),
        { s with
          isConnecting := false
          machines := hostname :: s.machines
          uiMachines := hostname :: s.uiMachines
          selectedMachine := hostname },
        [.setConnecting true, .addMachine hostname, .uiAddMachine hostname,
         .registerConnector hostname, .setSelectedMachine hostname,
         .notifyGlobal .success (.connected hostname), .setConnecting false]⟩
    | .error msg =>
      ⟨.ok (),
        { s with isConnecting := false },
        [.setConnecting true, .notifyGlobal .error (.connectError hostname msg),
         .setConnecting false]⟩

/-- The `disconnect` action. `td` is the oracle for the awaited
`dispatch('machines/<hostname>/disconnect')` teardown call. Note that the
action never reads `isDisconnecting`, never touches `uiMachines`, and
reselects `default` before committing `removeMachine`. -/
def disconnect (s : OrchState) (hostname : String) (doDisconnect : Bool)
    (td : Except String Unit) : ActionResult :=
  if hostname = "default" then
    ⟨.error .invalidHostname, s, []⟩
  else if hostname ∈ s.machines then
    ⟨.ok (),
      { s with
        isDisconnecting := if doDisconnect then false else s.isDisconnecting
        selectedMachine :=
          if s.selectedMachine = hostname then "default" else s.selectedMachine
        machines := s.machines.filter (fun m => m != hostname) },
      (if doDisconnect then
        match td with
        | .ok _ =>
          [.setDisconnecting true,
           .notifyGlobal .success (.disconnected hostname),
           .setDisconnecting false]
        | .error msg =>
          [.setDisconnecting true,
           .notifyGlobal .warning (.disconnectError hostname msg),
           .setDisconnecting false]
      else []) ++
      [.unregisterBindings hostname] ++
      (if s.selectedMachine = hostname then [.setSelectedMachine "default"]
       else []) ++
      [.removeMachine hostname]⟩
  else
    ⟨.error (.alreadyDisconnected hostname), s, []⟩

/-- Outcome of the `sendCode` action: the response or re-raised error,
and the log lines emitted. The action commits no mutation. -/
structure SendResult where
  result : Except DispatchErr Unit
  events : List Event
deriving DecidableEq, Repr

/-- The `sendCode` action. `dispatchResult` is the oracle for the awaited
`dispatch('machines/<hostname>/sendCode', code)` call, yielding the
response string or an error. -/
def sendCode (s : OrchState) (code : String)
    (dispatchResult : Except DispatchErr String) : SendResult :=
  match dispatchResult with
  | .ok response =>
    ⟨.ok (), [.logCode code response s.selectedMachine]⟩
  | .error e =>
    ⟨.error e,
      if e.kind = .disconnectedErr then []
      else [.log (if e.kind = .codeBufferErr then .warning else .error) e.msg]⟩

/-- The `isConnected` getter: `state.selectedMachine !== 'default'`. -/
def isConnected (s : OrchState) : Bool :=
  s.selectedMachine != "default"

/-- One orchestration step: a `connect` or `disconnect` call with arbitrary
arguments and arbitrary oracle outcomes (`sendCode` commits no mutation). -/
inductive Step : OrchState → OrchState → Prop
  | conn (s : OrchState) (hostname : String) (hs : Except String Unit) :
      Step s (connect s hostname hs).state
  | disc (s : OrchState) (hostname : String) (dd : Bool) (td : Except String Unit) :
      Step s (disconnect s hostname dd td).state

/-- States reachable from the initial state by orchestration steps. -/
def Reachable (s : OrchState) : Prop :=
  Relation.ReflTransGen Step initialState s

/-- A concrete state in which machine `m1` is registered and selected. -/
def stateA : OrchState :=
  { isConnecting := false
    isDisconnecting := false
    selectedMachine := "m1"
    machines := ["m1", "default"]
    uiMachines := ["m1"] }

/-- A concrete state as observed while transitions are suspended in I/O:
both gate flags are set and machine `m1` is still registered. -/
def stateGates : OrchState :=
  { isConnecting := true
    isDisconnecting := true
    selectedMachine := "default"
    machines := ["m1", "default"]
    uiMachines := ["m1"] }

/-- The state after connecting machine `m1` from the initial state. -/
def stateAfterConnect : OrchState :=
  (connect initialState "m1" (Except.ok ())).state

/-! ## Theorems -/

/-- C10: `getBoardDefinition` is total (its Lean type is already
non-optional): on a valid board type it returns exactly the stored
definition, otherwise it falls back to the default board, and on
`defaultBoardName` it returns `defaultBoard`. -/
theorem getBoardDefinition_total (boardType : String) :
    (isBoardValid boardType = true →
      boardDefinitions boardType = some (getBoardDefinition boardType)) ∧
    (isBoardValid boardType = false → getBoardDefinition boardType = defaultBoard) ∧
    getBoardDefinition defaultBoardName = defaultBoard := by
  refine ⟨?_, ?_, by decide⟩
  · intro h
    unfold isBoardValid at h
    unfold getBoardDefinition
    cases hb : boardDefinitions boardType with
    | some d => simp [hb]
    | none => rw [hb] at h; simp at h
  · intro h
    unfold isBoardValid at h
    unfold getBoardDefinition
    cases hb : boardDefinitions boardType with
    | some d => rw [hb] at h; simp at h
    | none => simp [hb]

/-- Witness for C10 at the valid board `duetm10` and an unknown board. -/
theorem getBoardDefinition_total_witness :
    (isBoardValid "duetm10" = true ∧
      boardDefinitions "duetm10" = some (getBoardDefinition "duetm10")) ∧
    (isBoardValid "duet3" = false ∧ getBoardDefinition "duet3" = defaultBoard) :=
  ⟨⟨by decide, (getBoardDefinition_total "duetm10").1 (by decide)⟩,
   ⟨by decide, (getBoardDefinition_total "duet3").2.1 (by decide)⟩⟩

/-- C1: for an endpoint other than `default` that is not yet registered,
with no connect in flight, a successful connect registers the endpoint in
the registry and the UI collaborator, selects it, and emits the success
notification. -/
theorem connect_success_registers (s : OrchState) (e : String)
    (h1 : e ≠ "default") (h2 : e ∉ s.machines) (h3 : s.isConnecting = false) :
    (connect s e (.ok ())).result = .ok () ∧
    e ∈ (connect s e (.ok ())).state.machines ∧
    e ∈ (connect s e (.ok ())).state.uiMachines ∧
    (connect s e (.ok ())).state.selectedMachine = e ∧
    Event.notifyGlobal .success (.connected e) ∈ (connect s e (.ok ())).events := by
  simp [connect, h1, h2, h3]

/-- Witness for C1: connect `m1` from the initial state. -/
theorem connect_success_registers_witness :
    ("m1" : String) ≠ "default" ∧ "m1" ∉ initialState.machines ∧
    initialState.isConnecting = false ∧
    ((connect initialState "m1" (.ok ())).result = .ok () ∧
     "m1" ∈ (connect initialState "m1" (.ok ())).state.machines ∧
     "m1" ∈ (connect initialState "m1" (.ok ())).state.uiMachines ∧
     (connect initialState "m1" (.ok ())).state.selectedMachine = "m1" ∧
     Event.notifyGlobal .success (.connected "m1") ∈
       (connect initialState "m1" (.ok ())).events) :=
  ⟨by decide, by decide, by decide,
   connect_success_registers initialState "m1" (by decide) (by decide) (by decide)⟩

/-- C2: connect's three preconditions are checked in order, each raising
its distinct error synchronously with the state unchanged and no effects
emitted: reserved hostname first, already-registered second, and
connect-in-flight third. -/
theorem connect_preconditions (s : OrchState) (e : String) (hs : Except String Unit) :
    (e = "default" → connect s e hs = ⟨.error .invalidHostname, s, []⟩) ∧
    (e ≠ "default" → e ∈ s.machines →
      connect s e hs = ⟨.error (.alreadyConnected e), s, []⟩) ∧
    (e ≠ "default" → e ∉ s.machines → s.isConnecting = true →
      connect s e hs = ⟨.error .alreadyConnecting, s, []⟩) := by
  refine ⟨?_, ?_, ?_⟩
  · intro h1
    simp [connect, h1]
  · intro h1 h2
    simp [connect, h1, h2]
  · intro h1 h2 h3
    simp [connect, h1, h2, h3]

/-- Witness for C2: each rejection branch at a concrete input. -/
theorem connect_preconditions_witness :
    connect initialState "default" (.ok ()) =
      ⟨.error .invalidHostname, initialState, []⟩ ∧
    connect stateA "m1" (.ok ()) = ⟨.error (.alreadyConnected "m1"), stateA, []⟩ ∧
    connect stateGates "m2" (.ok ()) = ⟨.error .alreadyConnecting, stateGates, []⟩ :=
  ⟨(connect_preconditions initialState "default" (.ok ())).1 (by decide),
   (connect_preconditions stateA "m1" (.ok ())).2.1 (by decide) (by decide),
   (connect_preconditions stateGates "m2" (.ok ())).2.2
     (by decide) (by decide) (by decide)⟩

/-- C3: when no connect is in flight beforehand, any connect attempt leaves
`isConnecting == false` afterwards, and every admitted attempt commits the
gate-clearing mutation on both the success and the failure path. -/
theorem connect_clears_gate (s : OrchState) (e : String) (hs : Except String Unit)
    (h3 : s.isConnecting = false) :
    (connect s e hs).state.isConnecting = false ∧
    (e ≠ "default" → e ∉ s.machines →
      Event.setConnecting false ∈ (connect s e hs).events) := by
  cases hs <;> unfold connect <;> split_ifs <;> simp_all

/-- Witness for C3: a failing handshake from the initial state. -/
theorem connect_clears_gate_witness :
    initialState.isConnecting = false ∧
    ((connect initialState "m1" (.error "net down")).state.isConnecting = false ∧
     (("m1" : String) ≠ "default" → "m1" ∉ initialState.machines →
       Event.setConnecting false ∈
         (connect initialState "m1" (.error "net down")).events)) :=
  ⟨by decide, connect_clears_gate initialState "m1" (.error "net down") (by decide)⟩

/-- C4: on an admitted connect whose handshake fails, the failure is
reported as an error-level notification carrying the endpoint and reason,
nothing is re-raised to the caller, and the registry, UI set and selector
are exactly as before the attempt. -/
theorem connect_failure_no_mutation (s : OrchState) (e msg : String)
    (h1 : e ≠ "default") (h2 : e ∉ s.machines) (h3 : s.isConnecting = false) :
    (connect s e (.error msg)).result = .ok () ∧
    (connect s e (.error msg)).state.machines = s.machines ∧
    (connect s e (.error msg)).state.uiMachines = s.uiMachines ∧
    (connect s e (.error msg)).state.selectedMachine = s.selectedMachine ∧
    Event.notifyGlobal .error (.connectError e msg) ∈
      (connect s e (.error msg)).events := by
  simp [connect, h1, h2, h3]

/-- Witness for C4: a failing handshake from the initial state. -/
theorem connect_failure_no_mutation_witness :
    ("m1" : String) ≠ "default" ∧ "m1" ∉ initialState.machines ∧
    initialState.isConnecting = false ∧
    ((connect initialState "m1" (.error "refused")).result = .ok () ∧
     (connect initialState "m1" (.error "refused")).state.machines =
       initialState.machines ∧
     (connect initialState "m1" (.error "refused")).state.uiMachines =
       initialState.uiMachines ∧
     (connect initialState "m1" (.error "refused")).state.selectedMachine =
       initialState.selectedMachine ∧
     Event.notifyGlobal .error (.connectError "m1" "refused") ∈
       (connect initialState "m1" (.error "refused")).events) :=
  ⟨by decide, by decide, by decide,
   connect_failure_no_mutation initialState "m1" "refused"
     (by decide) (by decide) (by decide)⟩

/-- C5 counterexample: after connecting `m1` and then disconnecting it, the
disconnect succeeds and removes `m1` from the registry, yet `m1` is still
present in the UI collaborator's endpoint set — the `disconnect` action
commits no `ui` removal, contradicting the claim that the endpoint ends up
absent from the UI collaborator. -/
theorem disconnect_keeps_ui_entry :
    "m1" ∈ stateAfterConnect.machines ∧
    (disconnect stateAfterConnect "m1" true (.ok ())).result = .ok () ∧
    "m1" ∉ (disconnect stateAfterConnect "m1" true (.ok ())).state.machines ∧
    "m1" ∈ (disconnect stateAfterConnect "m1" true (.ok ())).state.uiMachines := by
  decide

/-- C5 amended: disconnect of a registered non-default endpoint always
reaches the terminal state no matter how teardown ends — teardown failure
is downgraded to a warning notification, bindings are unregistered before
removal, the endpoint ends up absent from the registry (but stays in the
UI collaborator's set), and `isDisconnecting == false` afterwards;
disconnect of an unregistered endpoint fails with the already-disconnected
error and changes nothing. -/
theorem disconnect_terminal_state (s : OrchState) (e : String)
    (td : Except String Unit) (h1 : e ≠ "default") :
    (e ∈ s.machines →
      (disconnect s e true td).result = .ok () ∧
      e ∉ (disconnect s e true td).state.machines ∧
      (disconnect s e true td).state.uiMachines = s.uiMachines ∧
      (disconnect s e true td).state.isDisconnecting = false ∧
      (∀ msg, td = .error msg →
        Event.notifyGlobal .warning (.disconnectError e msg) ∈
          (disconnect s e true td).events) ∧
      ∃ l1 l2, (disconnect s e true td).events =
        l1 ++ [Event.unregisterBindings e] ++ l2 ++ [Event.removeMachine e]) ∧
    (e ∉ s.machines →
      disconnect s e true td = ⟨.error (.alreadyDisconnected e), s, []⟩) := by
  refine ⟨fun h2 => ?_, fun h2 => by simp [disconnect, h1, h2]⟩
  refine ⟨?_, ?_, ?_, ?_, ?_, ?_⟩
  · simp [disconnect, h1, h2]
  · simp [disconnect, h1, h2, List.mem_filter]
  · simp [disconnect, h1, h2]
  · simp [disconnect, h1, h2]
  · intro msg hmsg
    subst hmsg
    simp [disconnect, h1, h2]
  · cases td with
    | ok u =>
      refine ⟨[.setDisconnecting true, .notifyGlobal .success (.disconnected e),
               .setDisconnecting false],
              if s.selectedMachine = e then [Event.setSelectedMachine "default"]
              else [], ?_⟩
      simp [disconnect, h1, h2]
    | error msg =>
      refine ⟨[.setDisconnecting true, .notifyGlobal .warning (.disconnectError e msg),
               .setDisconnecting false],
              if s.selectedMachine = e then [Event.setSelectedMachine "default"]
              else [], ?_⟩
      simp [disconnect, h1, h2]

/-- Witness for C5 (amended): disconnect `m1` with a failing teardown. -/
theorem disconnect_terminal_state_witness :
    ("m1" : String) ≠ "default" ∧ "m1" ∈ stateA.machines ∧
    ((disconnect stateA "m1" true (.error "oops")).result = .ok () ∧
     "m1" ∉ (disconnect stateA "m1" true (.error "oops")).state.machines ∧
     (disconnect stateA "m1" true (.error "oops")).state.uiMachines =
       stateA.uiMachines ∧
     (disconnect stateA "m1" true (.error "oops")).state.isDisconnecting = false ∧
     (∀ msg, (Except.error "oops" : Except String Unit) = .error msg →
       Event.notifyGlobal .warning (.disconnectError "m1" msg) ∈
         (disconnect stateA "m1" true (.error "oops")).events) ∧
     ∃ l1 l2, (disconnect stateA "m1" true (.error "oops")).events =
       l1 ++ [Event.unregisterBindings "m1"] ++ l2 ++ [Event.removeMachine "m1"]) :=
  ⟨by decide, by decide,
   (disconnect_terminal_state stateA "m1" (.error "oops") (by decide)).1 (by decide)⟩

/-- The registry invariant: the selected machine and the built-in
`default` machine are always registered. -/
def Inv (s : OrchState) : Prop :=
  s.selectedMachine ∈ s.machines ∧ "default" ∈ s.machines

/-- `connect` preserves the registry invariant for any arguments and any
handshake outcome. -/
theorem connect_state_inv (s : OrchState) (hostname : String)
    (hs : Except String Unit) (hI : Inv s) : Inv (connect s hostname hs).state := by
  obtain ⟨hsel, hdef⟩ := hI
  by_cases h1 : hostname = "default"
  · simpa [connect, h1] using ⟨hsel, hdef⟩
  by_cases h2 : hostname ∈ s.machines
  · simpa [connect, h1, h2] using ⟨hsel, hdef⟩
  by_cases h3 : s.isConnecting = true
  · simpa [connect, h1, h2, h3] using ⟨hsel, hdef⟩
  cases hs with
  | ok u => simp [connect, Inv, h1, h2, h3, hdef]
  | error msg => simpa [connect, h1, h2, h3] using ⟨hsel, hdef⟩

/-- `disconnect` preserves the registry invariant for any arguments and any
teardown outcome. -/
theorem disconnect_state_inv (s : OrchState) (hostname : String) (dd : Bool)
    (td : Except String Unit) (hI : Inv s) :
    Inv (disconnect s hostname dd td).state := by
  obtain ⟨hsel, hdef⟩ := hI
  by_cases h1 : hostname = "default"
  · simpa [disconnect, h1] using ⟨hsel, hdef⟩
  by_cases h2 : hostname ∈ s.machines
  · have hdh : "default" ≠ hostname := fun hh => h1 hh.symm
    by_cases hs : s.selectedMachine = hostname
    · simp [disconnect, Inv, h1, h2, hs, List.mem_filter, bne_iff_ne, hdef, hdh]
    · simp [disconnect, Inv, h1, h2, hs, List.mem_filter, bne_iff_ne, hdef, hdh,
        hsel]
  · simpa [disconnect, h1, h2] using ⟨hsel, hdef⟩

/-- Every orchestration step preserves the registry invariant. -/
theorem inv_step {s t : OrchState} (h : Step s t) (hI : Inv s) : Inv t := by
  cases h with
  | conn hostname hs => exact connect_state_inv s hostname hs hI
  | disc hostname dd td => exact disconnect_state_inv s hostname dd td hI

/-- Every reachable state satisfies the registry invariant. -/
theorem inv_reachable {s : OrchState} (h : Reachable s) : Inv s := by
  induction h with
  | refl => exact ⟨by decide, by decide⟩
  | tail _ hstep ih => exact inv_step hstep ih

/-- C6: in every reachable state the selected endpoint is registered, and
disconnecting the selected endpoint reselects `default` — committing the
reselection before `removeMachine` — so the selection never points at an
unregistered endpoint, whatever the teardown outcome. -/
theorem selected_always_registered (s : OrchState) (e : String)
    (td : Except String Unit) :
    (Reachable s → s.selectedMachine ∈ s.machines) ∧
    (e ≠ "default" → e ∈ s.machines → s.selectedMachine = e →
      (disconnect s e true td).state.selectedMachine = "default" ∧
      ∃ l1, (disconnect s e true td).events =
        l1 ++ [Event.setSelectedMachine "default", Event.removeMachine e]) := by
  constructor
  · intro h
    exact (inv_reachable h).1
  · intro h1 h2 hsel
    constructor
    · simp [disconnect, h1, h2, hsel]
    · cases td with
      | ok u =>
        refine ⟨[.setDisconnecting true, .notifyGlobal .success (.disconnected e),
                 .setDisconnecting false, .unregisterBindings e], ?_⟩
        simp [disconnect, h1, h2, hsel]
      | error msg =>
        refine ⟨[.setDisconnecting true, .notifyGlobal .warning (.disconnectError e msg),
                 .setDisconnecting false, .unregisterBindings e], ?_⟩
        simp [disconnect, h1, h2, hsel]

/-- Witness for C6: the reachable state after connecting `m1`, then
disconnecting that selected endpoint. -/
theorem selected_always_registered_witness :
    stateAfterConnect.selectedMachine ∈ stateAfterConnect.machines ∧
    ((disconnect stateAfterConnect "m1" true (.ok ())).state.selectedMachine =
       "default" ∧
     ∃ l1, (disconnect stateAfterConnect "m1" true (.ok ())).events =
       l1 ++ [Event.setSelectedMachine "default", Event.removeMachine "m1"]) :=
  ⟨(selected_always_registered stateAfterConnect "m1" (.ok ())).1
     (Relation.ReflTransGen.single (Step.conn initialState "m1" (Except.ok ()))),
   (selected_always_registered stateAfterConnect "m1" (.ok ())).2
     (by decide) (by decide) (by decide)⟩

/-- C7 counterexample: in a state where a disconnect is already in flight
(`isDisconnecting == true`), a second disconnect of a registered endpoint
is admitted and completes successfully — the `disconnect` action never
reads the `isDisconnecting` gate, contradicting the claim that a second
disconnect is rejected while one is in flight. -/
theorem disconnect_gate_not_enforced :
    stateGates.isDisconnecting = true ∧
    (disconnect stateGates "m1" true (.ok ())).result = .ok () := by
  decide

/-- C7 amended: the `isConnecting` gate does reject every connect attempted
while a connect is in flight, leaving the state untouched; the
`isDisconnecting` flag, however, is set and cleared but never consulted, so
a disconnect of a registered non-default endpoint attempted while one is in
flight is admitted rather than rejected. -/
theorem single_flight_gates (s : OrchState) (e : String)
    (hs td : Except String Unit) :
    (s.isConnecting = true →
      (∃ err, (connect s e hs).result = .error err) ∧
      (connect s e hs).state = s ∧ (connect s e hs).events = []) ∧
    (s.isDisconnecting = true → e ≠ "default" → e ∈ s.machines →
      (disconnect s e true td).result = .ok ()) := by
  constructor
  · intro hC
    unfold connect
    split_ifs with h1 h2
    · exact ⟨⟨_, rfl⟩, rfl, rfl⟩
    · exact ⟨⟨_, rfl⟩, rfl, rfl⟩
    · exact ⟨⟨_, rfl⟩, rfl, rfl⟩
  · intro hD h1 h2
    simp [disconnect, h1, h2]

/-- Witness for C7 (amended): both gates set in `stateGates`. -/
theorem single_flight_gates_witness :
    stateGates.isConnecting = true ∧ stateGates.isDisconnecting = true ∧
    ((∃ err, (connect stateGates "m2" (.ok ())).result = .error err) ∧
     (connect stateGates "m2" (.ok ())).state = stateGates ∧
     (connect stateGates "m2" (.ok ())).events = []) ∧
    (disconnect stateGates "m1" true (.ok ())).result = .ok () :=
  ⟨by decide, by decide,
   (single_flight_gates stateGates "m2" (.ok ()) (.ok ())).1 (by decide),
   (single_flight_gates stateGates "m1" (.ok ()) (.ok ())).2
     (by decide) (by decide) (by decide)⟩

/-- C8: `sendCode` forwards command and response to the code logger keyed
by the selected endpoint on success; on failure it re-raises the error
after classification — a disconnected error produces no log line, a
code-buffer error logs a warning, anything else logs an error. -/
theorem sendCode_classification (s : OrchState) (code response : String)
    (e : DispatchErr) :
    sendCode s code (.ok response) =
      ⟨.ok (), [Event.logCode code response s.selectedMachine]⟩ ∧
    ((sendCode s code (.error e)).result = .error e ∧
     (e.kind = .disconnectedErr → (sendCode s code (.error e)).events = []) ∧
     (e.kind = .codeBufferErr →
       (sendCode s code (.error e)).events = [Event.log .warning e.msg]) ∧
     (e.kind = .otherErr →
       (sendCode s code (.error e)).events = [Event.log .error e.msg])) := by
  refine ⟨rfl, rfl, ?_, ?_, ?_⟩ <;> intro hk <;> simp [sendCode, hk]

/-- Witness for C8: each error classification at a concrete error. -/
theorem sendCode_classification_witness :
    ((sendCode stateA "G28" (.error ⟨.disconnectedErr, "gone"⟩)).result =
       .error ⟨.disconnectedErr, "gone"⟩ ∧
     (sendCode stateA "G28" (.error ⟨.disconnectedErr, "gone"⟩)).events = []) ∧
    (sendCode stateA "G28" (.error ⟨.codeBufferErr, "full"⟩)).events =
      [Event.log .warning "full"] ∧
    (sendCode stateA "G28" (.error ⟨.otherErr, "bad"⟩)).events =
      [Event.log .error "bad"] :=
  ⟨⟨(sendCode_classification stateA "G28" "ok" ⟨.disconnectedErr, "gone"⟩).2.1,
    (sendCode_classification stateA "G28" "ok" ⟨.disconnectedErr, "gone"⟩).2.2.1 rfl⟩,
   (sendCode_classification stateA "G28" "ok" ⟨.codeBufferErr, "full"⟩).2.2.2.1 rfl,
   (sendCode_classification stateA "G28" "ok" ⟨.otherErr, "bad"⟩).2.2.2.2 rfl⟩

/-- C9: the `isConnected` getter holds exactly when the selected endpoint
differs from `default`; it is false initially and false again after the
selected session is disconnected. -/
theorem isConnected_characterization (s : OrchState) (e : String)
    (td : Except String Unit) :
    (isConnected s = true ↔ s.selectedMachine ≠ "default") ∧
    isConnected initialState = false ∧
    (s.selectedMachine = e → e ≠ "default" → e ∈ s.machines →
      isConnected (disconnect s e true td).state = false) := by
  refine ⟨?_, by decide, ?_⟩
  · simp [isConnected]
  · intro hsel h1 h2
    simp [isConnected, disconnect, h1, h2, hsel]

/-- Witness for C9: disconnecting the selected `m1` in `stateA`. -/
theorem isConnected_characterization_witness :
    stateA.selectedMachine = "m1" ∧
    isConnected (disconnect stateA "m1" true (.ok ())).state = false :=
  ⟨by decide,
   (isConnected_characterization stateA "m1" (.ok ())).2.2
     (by decide) (by decide) (by decide)⟩

end DuetWebControl
